import Mathlib

/-!
Shallow embedding of the `DebugBlock` batch re-execution and trace-generation
engine of the x1-node `state` package (source file `src/unnamed/part_000`,
function `(*State).DebugBlock`, lines 28-463).

External collaborators (storage queries, the executor RPC client, the batch
codec implemented in sibling files of the repository, tracer constructors)
are modelled as fields of an explicit environment `Env`; the control flow,
field plumbing and machine-integer arithmetic of `DebugBlock` itself are
translated directly from the source.  Go `uint64`/`uint32` conversions are
made explicit with `% 2 ^ 64` / `% 2 ^ 32` arithmetic.  A Go runtime panic
(nil-pointer dereference or slice index out of range) is modelled by the
distinguished error `DebugErr.goPanic`.
-/

set_option autoImplicit false

namespace X1

/-- Go `uint64(i)` conversion of a (possibly negative) signed value:
reduction modulo `2 ^ 64`. -/
def u64ofInt (i : Int) : Nat := (i % (2 ^ 64 : Int)).toNat

/-- Go `uint64` subtraction `a - b`, which wraps around on underflow. -/
def u64sub (a b : Nat) : Nat := u64ofInt ((a : Int) - (b : Int))

/-- Go `uint32(n)` conversion of an unsigned value. -/
def u32ofNat (n : Nat) : Nat := n % 2 ^ 32

/-- Modelled from the spec: the executor wire encoding of booleans used by
the `state` package (`cFalse`/`cTrue` constants defined in a sibling file of
the repository). -/
def cFalse : Nat := 0

/-- Modelled from the spec: the executor wire encoding of `true`. -/
def cTrue : Nat := 1

/-- Modelled from the spec: the fork-boundary constant separating the two
executor wire-protocol generations (`FORKID_ETROG`, defined in a sibling
file of the repository).  Only comparisons against it matter here. -/
def FORKID_ETROG : Nat := 7

/-- Modelled from the spec: the maximal effective-gas-price percentage used
as fallback when the effective gas price is empty (`MaxEffectivePercentage`,
defined in a sibling file of the repository). -/
def MaxEffectivePercentage : Nat := 255

/-- A transaction of an L2 block.  Addresses, hashes and big integers are
modelled as `Nat`.  `sender` models the outcome of `GetSender` (signature
recovery, implemented in a sibling file of the repository): `none` models a
recovery failure.  The Go field `To` is rendered `toAddr` (`to` is reserved
in Lean): `none` signals contract creation. -/
structure Transaction where
  toAddr : Option Nat
  gasPrice : Nat
  gas : Nat
  value : Nat
  data : List Nat
  hash : Nat
  sender : Option Nat
  deriving DecidableEq

/-- The fields of a transaction receipt read by `DebugBlock`. -/
structure Receipt where
  effectiveGasPrice : Nat
  blockHash : Nat
  blockNumber : Nat
  transactionIndex : Nat
  deriving DecidableEq

/-- The fields of an L2 block read by `DebugBlock`. -/
structure L2Block where
  number : Nat
  time : Nat
  root : Nat
  coinbase : Nat
  transactions : List Transaction
  deriving DecidableEq

/-- The fields of a batch read by `DebugBlock`. -/
structure Batch where
  batchNumber : Nat
  accInputHash : Nat
  globalExitRoot : Nat
  coinbase : Nat
  timestamp : Nat
  stateRoot : Nat
  batchL2Data : List Nat
  deriving DecidableEq

/-- A decoded raw L2 block; only the `IndexL1InfoTree` field is read by
`DebugBlock`. -/
structure RawBlock where
  indexL1InfoTree : Nat
  deriving DecidableEq

/-- The decoded structural view of `BatchL2Data` (`DecodeBatchV2`). -/
structure RawBatch where
  blocks : List RawBlock
  deriving DecidableEq

/-- The fields of a virtual batch read by `DebugBlock`. -/
structure VirtualBatch where
  blockNumber : Nat
  deriving DecidableEq

/-- The fields of an L1 block read by `DebugBlock`. -/
structure L1Block where
  blockHash : Nat
  deriving DecidableEq

/-- One entry of the L1-info-tree data recovered from the batch payload
(`GetL1InfoTreeDataFromBatchL2Data`). -/
structure L1Data where
  globalExitRoot : Nat
  blockHashL1 : Nat
  minTimestamp : Nat
  deriving DecidableEq

/-- The caller-supplied trace configuration.  `tracer = none` or
`some ""` selects the default tracer.  `jsCustom` models, from the spec, the
`IsJSCustomTracer` test on the tracer name (a user-supplied script). -/
structure TraceConfig where
  tracer : Option String
  tracerConfig : Nat
  disableStorage : Bool
  disableStack : Bool
  enableMemory : Bool
  enableReturnData : Bool
  limit : Nat
  jsCustom : Bool
  deriving DecidableEq

/-- Modelled from the spec: the default tracer is selected when no named
tracer variant is given (`TraceConfig.IsDefaultTracer`, implemented in a
sibling file of the repository). -/
def TraceConfig.IsDefaultTracer (tc : TraceConfig) : Bool :=
  tc.tracer.isNone || tc.tracer == some ""

/-- Modelled from the spec: selection of the four-byte-selector tracer. -/
def TraceConfig.Is4ByteTracer (tc : TraceConfig) : Bool :=
  tc.tracer == some "4byteTracer"

/-- Modelled from the spec: selection of the call-graph tracer. -/
def TraceConfig.IsCallTracer (tc : TraceConfig) : Bool :=
  tc.tracer == some "callTracer"

/-- Modelled from the spec: selection of the flat-call tracer. -/
def TraceConfig.IsFlatCallTracer (tc : TraceConfig) : Bool :=
  tc.tracer == some "flatCallTracer"

/-- Modelled from the spec: selection of the no-op tracer. -/
def TraceConfig.IsNoopTracer (tc : TraceConfig) : Bool :=
  tc.tracer == some "noopTracer"

/-- Modelled from the spec: selection of the prestate tracer. -/
def TraceConfig.IsPrestateTracer (tc : TraceConfig) : Bool :=
  tc.tracer == some "prestateTracer"

/-- Modelled from the spec: selection of a user-supplied custom script
tracer. -/
def TraceConfig.IsJSCustomTracer (tc : TraceConfig) : Bool :=
  tc.jsCustom

/-- Decode errors of `DecodeTxs`; `invalidData` is the repository's
`ErrInvalidData` ("no further data to decode"), the single tolerated kind on
the decode-for-logging path. -/
inductive DecodeErr where
  | invalidData
  | other (code : Nat)
  deriving DecidableEq

/-- The domain errors `DebugBlock` can surface.  Abstract errors produced by
external collaborators carry an opaque numeric code.  `goPanic` models a Go
runtime panic (nil dereference or index out of range): on such inputs the Go
function is not total. -/
inductive DebugErr where
  | storage (code : Nat)
  | egp (code : Nat)
  | encode (code : Nat)
  | decodeErr (e : DecodeErr)
  | executorTransport (code : Nat)
  | executorError (code : Nat)
  | convert (code : Nat)
  | countMismatch
  | senderRecoveryFailed
  | gasPriceParseFailed
  | tracerConstructionFailed (code : Nat)
  | invalidTracer
  | parseTraceFailed (code : Nat)
  | buildTraceFailed (code : Nat)
  | goPanic
  deriving DecidableEq

/-- Outcomes of `CalculateEffectiveGasPricePercentage`:
`effectiveGasPriceEmpty` is the repository's `ErrEffectiveGasPriceEmpty`,
which `DebugBlock` tolerates by substituting `MaxEffectivePercentage`. -/
inductive EGPErr where
  | effectiveGasPriceEmpty
  | other (e : DebugErr)
  deriving DecidableEq

/-- The executor trace configuration built for a v1 request
(`executor.TraceConfig`); the capture toggles use the `cFalse`/`cTrue`
encoding. -/
structure ExecTraceConfig where
  txHashToGenerateFullTrace : Nat
  disableStorage : Nat
  disableStack : Nat
  enableMemory : Nat
  enableReturnData : Nat
  deriving DecidableEq

/-- The executor trace configuration built for a v2 request
(`executor.TraceConfigV2`). -/
structure ExecTraceConfigV2 where
  txHashToGenerateFullTrace : Nat
  disableStorage : Nat
  disableStack : Nat
  enableMemory : Nat
  enableReturnData : Nat
  deriving DecidableEq

/-- The pre-boundary executor request (`executor.ProcessBatchRequest`). -/
structure ProcessBatchRequest where
  oldBatchNum : Nat
  oldStateRoot : Nat
  oldAccInputHash : Nat
  batchL2Data : List Nat
  coinbase : Nat
  updateMerkleTree : Nat
  chainId : Nat
  forkId : Nat
  traceConfig : ExecTraceConfig
  contextId : Nat
  globalExitRoot : Nat
  ethTimestamp : Nat
  deriving DecidableEq

/-- One entry of the v2 request's L1-info-tree map
(`executor.L1DataV2`). -/
structure L1DataV2 where
  globalExitRoot : Nat
  blockHashL1 : Nat
  minTimestamp : Nat
  deriving DecidableEq

/-- The post-boundary executor request (`executor.ProcessBatchRequestV2`).
`forcedBlockhashL1`, `skipVerifyL1InfoRoot` and `l1InfoTreeData` keep their
Go zero values unless the anchor-handling code assigns them. -/
structure ProcessBatchRequestV2 where
  oldBatchNum : Nat
  oldStateRoot : Nat
  oldAccInputHash : Nat
  batchL2Data : List Nat
  coinbase : Nat
  updateMerkleTree : Nat
  chainId : Nat
  forkId : Nat
  traceConfig : ExecTraceConfigV2
  contextId : Nat
  l1InfoRoot : Nat
  timestampLimit : Nat
  skipFirstChangeL2Block : Nat
  skipWriteBlockInfoRoot : Nat
  forcedBlockhashL1 : Option Nat := none
  skipVerifyL1InfoRoot : Nat := 0
  l1InfoTreeData : List (Nat × L1DataV2) := []
  deriving DecidableEq

/-- The raw v1 executor response: the global error code plus an opaque
payload consumed by `convertToProcessBatchResponse`.  A zero `error` is
`EXECUTOR_ERROR_NO_ERROR`. -/
structure ProcessBatchResponse where
  error : Nat
  payload : Nat
  deriving DecidableEq

/-- The raw v2 executor response. -/
structure ProcessBatchResponseV2 where
  error : Nat
  payload : Nat
  deriving DecidableEq

/-- The per-transaction instrumentation context
(`instrumentation.Context`).  String-rendered addresses and big integers are
kept as `Nat` (the Go renderings are injective). -/
structure InstrContext where
  type : String
  From : Nat
  toAddr : Nat
  input : List Nat
  gas : Nat
  value : Nat
  output : List Nat
  gasPrice : Nat
  oldStateRoot : Nat
  time : Nat
  gasUsed : Nat
  deriving DecidableEq

/-- The executor's raw trace payload (`instrumentation.FullTrace`): the
context slot that `DebugBlock` overwrites, plus an opaque remainder. -/
structure FullTrace where
  context : InstrContext
  steps : Nat
  deriving DecidableEq

/-- One converted per-transaction response
(`ProcessTransactionResponse`, fields read by `DebugBlock`). -/
structure ProcessTransactionResponse where
  createAddress : Nat
  gasLeft : Nat
  gasUsed : Nat
  returnValue : List Nat
  stateRoot : Nat
  fullTrace : FullTrace
  romError : Option Nat
  deriving DecidableEq

/-- One converted block response. -/
structure BlockResponse where
  transactionResponses : List ProcessTransactionResponse
  deriving DecidableEq

/-- The converted executor response
(`convertToProcessBatchResponse(V2)`). -/
structure ConvertedResponse where
  blockResponses : List BlockResponse
  deriving DecidableEq

/-- The per-transaction execution result returned by `DebugBlock`
(`runtime.ExecutionResult`, fields used here).  `traceResult` is attached
after tracing. -/
structure ExecutionResult where
  createAddress : Nat
  gasLeft : Nat
  gasUsed : Nat
  returnValue : List Nat
  stateRoot : Nat
  fullTrace : FullTrace
  err : Option Nat
  traceResult : Option Nat := none
  deriving DecidableEq

/-- The struct-logger configuration built for the default tracer. -/
structure StructLoggerCfg where
  enableMemory : Bool
  disableStack : Bool
  disableStorage : Bool
  enableReturnData : Bool
  deriving DecidableEq

/-- The shared context handed to every non-default tracer constructor
(`tracers.Context`). -/
structure TracerCtx where
  blockHash : Nat
  blockNumber : Nat
  txIndex : Nat
  txHash : Nat
  deriving DecidableEq

/-- The closed set of native tracer kinds. -/
inductive TracerKind where
  | fourByte
  | call
  | flatCall
  | noop
  | prestate
  deriving DecidableEq

/-- An audit-log entry produced by `eventLog.LogExecutorError(V2)` when the
executor reports a non-zero error code. -/
inductive AuditEvent where
  | executorErrorV1 (code : Nat) (request : ProcessBatchRequest)
  | executorErrorV2 (code : Nat) (request : ProcessBatchRequestV2)
  deriving DecidableEq

/-- The environment of external collaborators of `DebugBlock`: the storage
query surface, the batch codec and helpers implemented in sibling files of
the repository, the executor client, the event log's clock readings and the
tracer constructors.  Tracers and trace results are opaque `Nat` handles.
`now` models `time.Now().Unix()` at the timestamp-limit read and `elapsed`
the measured executor-call duration `endTime.Sub(startTime)`. -/
structure Env where
  getL2BlockByNumber : Nat → Except DebugErr L2Block
  getTransactionReceipt : Nat → Except DebugErr Receipt
  getBatchByL2BlockNumber : Nat → Except DebugErr Batch
  getForkIDByBatchNumber : Nat → Nat
  calculateEffectiveGasPricePercentage : Nat → Nat → Except EGPErr Nat
  encodeTransactions : List Transaction → List Nat → Nat → Except DebugErr (List Nat)
  decodeTxs : List Nat → Nat → Except DecodeErr (List Transaction)
  decodeBatchV2 : List Nat → Except DebugErr RawBatch
  getFirstL2BlockNumberForBatchNumber : Nat → Except DebugErr Nat
  buildChangeL2Block : Nat → Nat → List Nat
  getL1InfoTreeDataFromBatchL2Data : List Nat → Except DebugErr (List (Nat × L1Data))
  getVirtualBatch : Nat → Except DebugErr VirtualBatch
  getBlockByNumber : Nat → Except DebugErr L1Block
  processBatch : ProcessBatchRequest → Except DebugErr ProcessBatchResponse
  processBatchV2 : ProcessBatchRequestV2 → Except DebugErr ProcessBatchResponseV2
  convertToProcessBatchResponse : ProcessBatchResponse → Except DebugErr ConvertedResponse
  convertToProcessBatchResponseV2 : ProcessBatchResponseV2 → Except DebugErr ConvertedResponse
  parseTrace : StructLoggerCfg → ExecutionResult → Receipt → Except Nat Nat
  newTracer : TracerKind → TracerCtx → Nat → Except Nat Nat
  setFlatCallTracerLimit : Nat → Nat → Nat
  newJsTracer : String → TracerCtx → Nat → Except Nat Nat
  buildTrace : Nat → Nat → ExecutionResult → Nat → Except Nat Nat
  chainID : Nat
  contextId : Nat
  mockL1InfoRoot : Nat
  now : Nat
  elapsed : Nat

/-- Sender recovery (`GetSender`, implemented in a sibling file of the
repository): the modelled recovery outcome carried by the transaction is
surfaced, a missing outcome being the fatal recovery failure. -/
def GetSender (tx : Transaction) : Except DebugErr Nat :=
  match tx.sender with
  | some a => .ok a
  | none => .error .senderRecoveryFailed

/-- One iteration body of the effective-gas-price loop (lines 73-81): the
percentage is computed from the LAST transaction's gas price and the LAST
transaction's receipt, with `ErrEffectiveGasPriceEmpty` tolerated by
substituting `MaxEffectivePercentage`. -/
def egpOf (env : Env) (tx : Transaction) (receipt : Receipt) : Except DebugErr Nat :=
  match env.calculateEffectiveGasPricePercentage tx.gasPrice receipt.effectiveGasPrice with
  | .error .effectiveGasPriceEmpty => .ok MaxEffectivePercentage
  | .error (.other e) => .error e
  | .ok v => .ok v

/-- The loop of lines 71-83 restricted to the effective-percentage list it
builds: one entry is appended per block transaction, each computed by
`egpOf` from the `tx`/`receipt` variables (the block's last transaction and
its receipt).  Dereferencing a nil `tx`/`receipt` would be a Go panic. -/
def egpLoop (env : Env) (txOpt : Option Transaction) (receiptOpt : Option Receipt) :
    List Transaction → Except DebugErr (List Nat)
  | [] => .ok []
  | _ :: rest =>
    match txOpt, receiptOpt with
    | some tx, some receipt =>
      match egpOf env tx receipt with
      | .error e => .error e
      | .ok v =>
        match egpLoop env txOpt receiptOpt rest with
        | .error e => .error e
        | .ok vs => .ok (v :: vs)
    | _, _ => .error .goPanic

/-- Everything `DebugBlock` loads before the fork dispatch (lines 28-91):
the target and previous blocks, the last transaction and its receipt, the
transactions to encode with their effective-gas-price percentages, the
enclosing batch and its fork id. -/
structure LoadCtx where
  l2Block : L2Block
  previousL2Block : L2Block
  oldStateRoot : Nat
  txOpt : Option Transaction
  receiptOpt : Option Receipt
  transactionHash : Nat
  txsToEncode : List Transaction
  effectivePercentage : List Nat
  batch : Batch
  forkId : Nat
  deriving DecidableEq

/-- Lines 28-91 of `DebugBlock`: block, previous block, last transaction and
receipt (only when the block has transactions; the transaction hash keeps
its zero value otherwise), effective-gas-price percentages, batch and fork
id.  `txsToEncode` collects copies of the block's transactions in order. -/
def loadPhase (env : Env) (blockNumber : Nat) : Except DebugErr LoadCtx :=
  match env.getL2BlockByNumber blockNumber with
  | .error e => .error e
  | .ok l2Block =>
    match env.getL2BlockByNumber (if blockNumber > 0 then blockNumber - 1 else 0) with
    | .error e => .error e
    | .ok previousL2Block =>
      match
        (match l2Block.transactions.getLast? with
        | none => Except.ok (none, none, 0)
        | some tx =>
          match env.getTransactionReceipt tx.hash with
          | .error e => Except.error e
          | .ok receipt => Except.ok (some tx, some receipt, tx.hash)) with
      | .error e => .error e
      | .ok (txOpt, receiptOpt, transactionHash) =>
        match egpLoop env txOpt receiptOpt l2Block.transactions with
        | .error e => .error e
        | .ok effectivePercentage =>
          match env.getBatchByL2BlockNumber l2Block.number with
          | .error e => .error e
          | .ok batch =>
            .ok { l2Block := l2Block, previousL2Block := previousL2Block,
                  oldStateRoot := previousL2Block.root,
                  txOpt := txOpt, receiptOpt := receiptOpt,
                  transactionHash := transactionHash,
                  txsToEncode := l2Block.transactions,
                  effectivePercentage := effectivePercentage,
                  batch := batch,
                  forkId := env.getForkIDByBatchNumber batch.batchNumber }

/-- Lines 96-121: the v1 executor trace configuration, starting from
maximal capture and narrowed by the caller's toggles only when the default
tracer is selected. -/
def buildExecTraceConfig (tc : TraceConfig) (transactionHash : Nat) : ExecTraceConfig :=
  let base : ExecTraceConfig :=
    { txHashToGenerateFullTrace := transactionHash
      disableStorage := cFalse, disableStack := cFalse
      enableMemory := cTrue, enableReturnData := cTrue }
  if tc.IsDefaultTracer then
    let r := if tc.disableStorage then { base with disableStorage := cTrue } else base
    let r := if tc.disableStack then { r with disableStack := cTrue } else r
    let r := if !tc.enableMemory then { r with enableMemory := cFalse } else r
    if !tc.enableReturnData then { r with enableReturnData := cFalse } else r
  else base

/-- Lines 175-200: the v2 executor trace configuration, identical logic over
the v2 record type. -/
def buildExecTraceConfigV2 (tc : TraceConfig) (transactionHash : Nat) : ExecTraceConfigV2 :=
  let base : ExecTraceConfigV2 :=
    { txHashToGenerateFullTrace := transactionHash
      disableStorage := cFalse, disableStack := cFalse
      enableMemory := cTrue, enableReturnData := cTrue }
  if tc.IsDefaultTracer then
    let r := if tc.disableStorage then { base with disableStorage := cTrue } else base
    let r := if tc.disableStack then { r with disableStack := cTrue } else r
    let r := if !tc.enableMemory then { r with enableMemory := cFalse } else r
    if !tc.enableReturnData then { r with enableReturnData := cFalse } else r
  else base

/-- Lines 158-167 and 314-324: the final encoded payload is re-decoded only
for diagnostic logging; only `ErrInvalidData` ("no further data to decode")
is tolerated, every other decode failure aborts. -/
def decodeForLogging (env : Env) (data : List Nat) (forkId : Nat) : Except DebugErr Unit :=
  match env.decodeTxs data forkId with
  | .error DecodeErr.invalidData => .ok ()
  | .error e => .error (.decodeErr e)
  | .ok _ => .ok ()

/-- Lines 129-144: the pre-boundary executor request. -/
def buildProcessBatchRequest (env : Env) (tc : TraceConfig) (L : LoadCtx)
    (batchL2Data : List Nat) : ProcessBatchRequest :=
  { oldBatchNum := u64sub L.batch.batchNumber 1
    oldStateRoot := L.oldStateRoot
    oldAccInputHash := L.batch.accInputHash
    batchL2Data := batchL2Data
    coinbase := L.batch.coinbase
    updateMerkleTree := cFalse
    chainId := env.chainID
    forkId := L.forkId
    traceConfig := buildExecTraceConfig tc L.transactionHash
    contextId := env.contextId
    globalExitRoot := L.batch.globalExitRoot
    ethTimestamp := L.batch.timestamp }

/-- A Go-style three-way outcome used to model the early returns of the
fork branches: failure with an error, the buggy `return nil, err` of line
230 taken while `err` is still nil (success with no results), or the value
the branch goes on with. -/
inductive GoOut (α : Type) where
  | fail (e : DebugErr)
  | bugOkNil
  | ok (a : α)

/-- The outcome of a fork branch: the converted per-transaction responses,
a failure (carrying the audit-log entries emitted on the way out), or the
buggy nil-error return of line 230. -/
inductive BranchOut where
  | fail (e : DebugErr) (events : List AuditEvent)
  | bugOkNil
  | ok (responses : List ProcessTransactionResponse)

/-- Lines 165-173 and 326-330 tail: `BlockResponses[0].TransactionResponses`
of the converted response; indexing an empty slice is a Go panic. -/
def headResponses (conv : ConvertedResponse) : BranchOut :=
  match conv.blockResponses with
  | [] => .fail .goPanic []
  | b :: _ => .ok b.transactionResponses

/-- Lines 96-173: the pre-boundary fork branch, from trace-configuration
building through the executor call, its error-code check with audit
logging, the decode-for-logging step, and response conversion. -/
def preBranch (env : Env) (tc : TraceConfig) (L : LoadCtx) : BranchOut :=
  match env.encodeTransactions L.txsToEncode L.effectivePercentage L.forkId with
  | .error e => .fail e []
  | .ok batchL2Data =>
    match env.processBatch (buildProcessBatchRequest env tc L batchL2Data) with
    | .error e => .fail e []
    | .ok resp =>
      if resp.error ≠ 0 then
        .fail (.executorError resp.error)
          [.executorErrorV1 resp.error (buildProcessBatchRequest env tc L batchL2Data)]
      else
        match decodeForLogging env batchL2Data L.forkId with
        | .error e => .fail e []
        | .ok _ =>
          match env.convertToProcessBatchResponse resp with
          | .error e => .fail e []
          | .ok conv => headResponses conv

/-- Lines 205-245: the post-boundary payload.  On the injected-transaction
path (block number 1) the stored batch payload is copied verbatim (and the
`batchL2Data` variable keeps its nil value, modelled `[]`); otherwise the
raw batch is decoded, the block's index located (with Go `uint64`
wraparound in both the index subtraction and the `len-1` conversion), the
boundary pseudo-transaction synthesized and prepended to the re-encoded
transactions.  The outcome carries `(transactions, batchL2Data)`. -/
def etrogPayload (env : Env) (L : LoadCtx) (isInjectedTx : Bool) :
    GoOut (List Nat × List Nat) :=
  if isInjectedTx then
    .ok (L.batch.batchL2Data, [])
  else
    match env.decodeBatchV2 L.batch.batchL2Data with
    | .error e => .fail e
    | .ok rawBatch =>
      match env.getFirstL2BlockNumberForBatchNumber L.batch.batchNumber with
      | .error e => .fail e
      | .ok firstBlockNumberForBatch =>
        if u64sub L.l2Block.number firstBlockNumberForBatch >
            u64ofInt ((rawBatch.blocks.length : Int) - 1) then
          .bugOkNil
        else
          match rawBatch.blocks.get? (u64sub L.l2Block.number firstBlockNumberForBatch) with
          | none => .fail .goPanic
          | some rawL2Block =>
            match env.encodeTransactions L.txsToEncode L.effectivePercentage L.forkId with
            | .error e => .fail e
            | .ok batchL2Data =>
              .ok (env.buildChangeL2Block
                     (u32ofNat (u64sub L.l2Block.time L.previousL2Block.time))
                     rawL2Block.indexL1InfoTree ++ batchL2Data,
                   batchL2Data)

/-- Lines 247-265: the base post-boundary executor request; the anchor
fields keep their zero values here. -/
def buildProcessBatchRequestV2 (env : Env) (tc : TraceConfig) (L : LoadCtx)
    (transactions : List Nat) : ProcessBatchRequestV2 :=
  { oldBatchNum := u64sub L.batch.batchNumber 1
    oldStateRoot := L.oldStateRoot
    oldAccInputHash := L.batch.accInputHash
    batchL2Data := transactions
    coinbase := L.l2Block.coinbase
    updateMerkleTree := cFalse
    chainId := env.chainID
    forkId := L.forkId
    traceConfig := buildExecTraceConfigV2 tc L.transactionHash
    contextId := env.contextId
    l1InfoRoot := env.mockL1InfoRoot
    timestampLimit := env.now
    skipFirstChangeL2Block := cFalse
    skipWriteBlockInfoRoot := cTrue }

/-- The fully assembled post-boundary request together with the re-encoded
payload kept for the decode-for-logging step and the injected flag. -/
structure EtrogReq where
  req : ProcessBatchRequestV2
  batchL2Data : List Nat
  isInjectedTx : Bool

/-- Lines 202-300: post-boundary request assembly.  Block number 1 signals
the protocol-injected first block: its request carries the anchoring L1
block's hash as `forcedBlockhashL1` and skips L1-info-root verification.
Any other block resolves `L1InfoTreeData` from the payload and attaches it
(skipping verification) exactly when the mapping is non-empty. -/
def etrogRequest (env : Env) (tc : TraceConfig) (L : LoadCtx) : GoOut EtrogReq :=
  match etrogPayload env L (L.l2Block.number == 1) with
  | .fail e => .fail e
  | .bugOkNil => .bugOkNil
  | .ok (transactions, batchL2Data) =>
    if L.l2Block.number == 1 then
      match env.getVirtualBatch L.batch.batchNumber with
      | .error e => .fail e
      | .ok virtualBatch =>
        match env.getBlockByNumber virtualBatch.blockNumber with
        | .error e => .fail e
        | .ok l1Block =>
          .ok { req := { buildProcessBatchRequestV2 env tc L transactions with
                           forcedBlockhashL1 := some l1Block.blockHash
                           skipVerifyL1InfoRoot := 1 }
                batchL2Data := batchL2Data, isInjectedTx := true }
    else
      match env.getL1InfoTreeDataFromBatchL2Data transactions with
      | .error e => .fail e
      | .ok l1InfoTreeData =>
        if l1InfoTreeData.length > 0 then
          .ok { req := { buildProcessBatchRequestV2 env tc L transactions with
                           skipVerifyL1InfoRoot := cTrue
                           l1InfoTreeData := l1InfoTreeData.map (fun kv =>
                             (kv.1, { globalExitRoot := kv.2.globalExitRoot
                                      blockHashL1 := kv.2.blockHashL1
                                      minTimestamp := kv.2.minTimestamp })) }
                batchL2Data := batchL2Data, isInjectedTx := false }
        else
          .ok { req := buildProcessBatchRequestV2 env tc L transactions
                batchL2Data := batchL2Data, isInjectedTx := false }

/-- Lines 175-331: the post-boundary fork branch: request assembly, the v2
executor call, its error-code check with audit logging, decode-for-logging
(skipped on the injected path) and response conversion. -/
def etrogBranch (env : Env) (tc : TraceConfig) (L : LoadCtx) : BranchOut :=
  match etrogRequest env tc L with
  | .fail e => .fail e []
  | .bugOkNil => .bugOkNil
  | .ok out =>
    match env.processBatchV2 out.req with
    | .error e => .fail e []
    | .ok resp =>
      if resp.error ≠ 0 then
        .fail (.executorError resp.error) [.executorErrorV2 resp.error out.req]
      else
        match (if out.isInjectedTx then Except.ok ()
               else decodeForLogging env out.batchL2Data L.forkId) with
        | .error e => .fail e []
        | .ok _ =>
          match env.convertToProcessBatchResponseV2 resp with
          | .error e => .fail e []
          | .ok conv => headResponses conv

/-- The loop-invariant data of the per-response loop (lines 339-461):
`txOpt`/`receiptOpt` are the `tx`/`receipt` variables of lines 49-65 (the
block's LAST transaction and its receipt), `batchStateRoot` seeds the fake
storage view, `elapsed` the measured executor latency. -/
structure Params where
  env : Env
  tc : TraceConfig
  txOpt : Option Transaction
  receiptOpt : Option Receipt
  transactionHash : Nat
  oldStateRoot : Nat
  batchStateRoot : Nat
  elapsed : Nat

/-- Lines 384-448: tracer variant selection for non-default tracers; a
construction failure or an unknown tracer name is fatal.  `flatCall`
additionally applies the result-count limit after construction.  The
custom-script constructor dereferences the tracer name pointer. -/
def selectTracer (env : Env) (tc : TraceConfig) (tracerContext : TracerCtx) :
    Except DebugErr Nat :=
  if tc.Is4ByteTracer then
    match env.newTracer .fourByte tracerContext tc.tracerConfig with
    | .error c => .error (.tracerConstructionFailed c)
    | .ok t => .ok t
  else if tc.IsCallTracer then
    match env.newTracer .call tracerContext tc.tracerConfig with
    | .error c => .error (.tracerConstructionFailed c)
    | .ok t => .ok t
  else if tc.IsFlatCallTracer then
    match env.newTracer .flatCall tracerContext tc.tracerConfig with
    | .error c => .error (.tracerConstructionFailed c)
    | .ok t => .ok (env.setFlatCallTracerLimit t tc.limit)
  else if tc.IsNoopTracer then
    match env.newTracer .noop tracerContext tc.tracerConfig with
    | .error c => .error (.tracerConstructionFailed c)
    | .ok t => .ok t
  else if tc.IsPrestateTracer then
    match env.newTracer .prestate tracerContext tc.tracerConfig with
    | .error c => .error (.tracerConstructionFailed c)
    | .ok t => .ok t
  else if tc.IsJSCustomTracer then
    match tc.tracer with
    | none => .error .goPanic
    | some script =>
      match env.newJsTracer script tracerContext tc.tracerConfig with
      | .error c => .error (.tracerConstructionFailed c)
      | .ok t => .ok t
  else .error .invalidTracer

/-- The body of the per-response loop (lines 339-461) for one converted
response: the execution result is assembled from the response, the
instrumentation context from the `tx` variable (the block's last
transaction) and the result, the context's call kind from that
transaction's recipient, and the trace is produced by the default
struct-logger path or by driving the selected tracer through the minimal
replay environment.  The decimal gas-price round-trip of lines 378-382
always succeeds on the `Nat` model of `big.Int`. -/
def processOne (P : Params) (response : ProcessTransactionResponse) :
    Except DebugErr ExecutionResult :=
  let result : ExecutionResult :=
    { createAddress := response.createAddress
      gasLeft := response.gasLeft
      gasUsed := response.gasUsed
      returnValue := response.returnValue
      stateRoot := response.stateRoot
      fullTrace := response.fullTrace
      err := response.romError }
  match P.txOpt with
  | none => .error .goPanic
  | some tx =>
    match GetSender tx with
    | .error e => .error e
    | .ok senderAddress =>
      let context0 : InstrContext :=
        { type := "", From := senderAddress, toAddr := 0
          input := tx.data, gas := tx.gas, value := tx.value
          output := result.returnValue, gasPrice := tx.gasPrice
          oldStateRoot := P.oldStateRoot, time := P.elapsed
          gasUsed := result.gasUsed }
      let context :=
        match tx.toAddr with
        | none => { context0 with type := "CREATE", toAddr := result.createAddress }
        | some t => { context0 with type := "CALL", toAddr := t }
      let result := { result with fullTrace := { result.fullTrace with context := context } }
      let gasPrice := context.gasPrice
      match P.receiptOpt with
      | none => .error .goPanic
      | some receipt =>
        let tracerContext : TracerCtx :=
          { blockHash := receipt.blockHash, blockNumber := receipt.blockNumber
            txIndex := receipt.transactionIndex, txHash := P.transactionHash }
        if P.tc.IsDefaultTracer then
          match P.env.parseTrace
              { enableMemory := P.tc.enableMemory, disableStack := P.tc.disableStack
                disableStorage := P.tc.disableStorage
                enableReturnData := P.tc.enableReturnData } result receipt with
          | .error c => .error (.parseTraceFailed c)
          | .ok traceResult => .ok { result with traceResult := some traceResult }
        else
          match selectTracer P.env P.tc tracerContext with
          | .error e => .error e
          | .ok tracer =>
            match P.env.buildTrace gasPrice P.batchStateRoot result tracer with
            | .error c => .error (.buildTraceFailed c)
            | .ok traceResult => .ok { result with traceResult := some traceResult }

/-- The per-response loop of lines 339-461: results are collected in
response order, the first failure aborting the whole replay. -/
def processResponses (P : Params) : List ProcessTransactionResponse →
    Except DebugErr (List ExecutionResult)
  | [] => .ok []
  | response :: rest =>
    match processOne P response with
    | .error e => .error e
    | .ok result =>
      match processResponses P rest with
      | .error e => .error e
      | .ok more => .ok (result :: more)

/-- The loop parameters as `DebugBlock` instantiates them from the loaded
context. -/
def mkParams (env : Env) (tc : TraceConfig) (L : LoadCtx) : Params :=
  { env := env, tc := tc, txOpt := L.txOpt, receiptOpt := L.receiptOpt
    transactionHash := L.transactionHash, oldStateRoot := L.oldStateRoot
    batchStateRoot := L.batch.stateRoot, elapsed := env.elapsed }

/-- Lines 333-462 applied to a branch outcome: the buggy nil-error return
surfaces as success with no results; otherwise the sanity check of line 334
demands exactly as many responses as block transactions before the
per-response loop runs. -/
def debugSuffix (env : Env) (tc : TraceConfig) (L : LoadCtx) (out : BranchOut) :
    Except DebugErr (List ExecutionResult) × List AuditEvent :=
  match out with
  | .fail e events => (.error e, events)
  | .bugOkNil => (.ok [], [])
  | .ok responses =>
    if responses.length ≠ L.l2Block.transactions.length then
      (.error .countMismatch, [])
    else
      match processResponses (mkParams env tc L) responses with
      | .error e => (.error e, [])
      | .ok results => (.ok results, [])

/-- `DebugBlock` (lines 28-463): load phase, fork dispatch on the batch's
fork id against the boundary constant, then the shared sanity check and
per-response trace loop.  The second component collects the audit-log
entries emitted on the way. -/
def debugBlock (env : Env) (blockNumber : Nat) (tc : TraceConfig) :
    Except DebugErr (List ExecutionResult) × List AuditEvent :=
  match loadPhase env blockNumber with
  | .error e => (.error e, [])
  | .ok L =>
    debugSuffix env tc L
      (if L.forkId < FORKID_ETROG then preBranch env tc L else etrogBranch env tc L)

/-! ## Helper lemmas -/

theorem egpLoop_replicate (env : Env) (tx : Transaction) (receipt : Receipt) (v : Nat)
    (h : egpOf env tx receipt = .ok v) (xs : List Transaction) :
    egpLoop env (some tx) (some receipt) xs = .ok (List.replicate xs.length v) := by
  induction xs with
  | nil => rfl
  | cons x rest ih => simp [egpLoop, h, ih, List.replicate]

theorem loadPhase_eq_of (env : Env) (blockNumber : Nat) (blk prev : L2Block)
    (lastTx : Transaction) (rcpt : Receipt) (batch : Batch) (v : Nat)
    (h1 : env.getL2BlockByNumber blockNumber = .ok blk)
    (h2 : env.getL2BlockByNumber (if blockNumber > 0 then blockNumber - 1 else 0) = .ok prev)
    (h3 : blk.transactions.getLast? = some lastTx)
    (h4 : env.getTransactionReceipt lastTx.hash = .ok rcpt)
    (h5 : egpOf env lastTx rcpt = .ok v)
    (h6 : env.getBatchByL2BlockNumber blk.number = .ok batch) :
    loadPhase env blockNumber = .ok
      { l2Block := blk, previousL2Block := prev, oldStateRoot := prev.root,
        txOpt := some lastTx, receiptOpt := some rcpt, transactionHash := lastTx.hash,
        txsToEncode := blk.transactions,
        effectivePercentage := List.replicate blk.transactions.length v,
        batch := batch, forkId := env.getForkIDByBatchNumber batch.batchNumber } := by
  simp only [loadPhase, h1, h2, h3, h4, egpLoop_replicate env lastTx rcpt v h5, h6]

theorem debugBlock_eq_of (env : Env) (blockNumber : Nat) (tc : TraceConfig) (L : LoadCtx)
    (h : loadPhase env blockNumber = .ok L) :
    debugBlock env blockNumber tc =
      debugSuffix env tc L
        (if L.forkId < FORKID_ETROG then preBranch env tc L else etrogBranch env tc L) := by
  unfold debugBlock
  rw [h]

theorem processResponses_ok_length (P : Params) (rs : List ProcessTransactionResponse)
    (res : List ExecutionResult) (h : processResponses P rs = .ok res) :
    res.length = rs.length := by
  induction rs generalizing res with
  | nil => cases h; rfl
  | cons r rest ih =>
    unfold processResponses at h
    cases h1 : processOne P r with
    | error e => rw [h1] at h; cases h
    | ok result =>
      rw [h1] at h
      cases h2 : processResponses P rest with
      | error e => rw [h2] at h; cases h
      | ok more =>
        rw [h2] at h
        cases h
        simp [ih more h2]

theorem processResponses_ok_get (P : Params) (rs : List ProcessTransactionResponse)
    (res : List ExecutionResult) (h : processResponses P rs = .ok res)
    (i : Nat) (hi : i < res.length) (hj : i < rs.length) :
    processOne P (rs.get ⟨i, hj⟩) = .ok (res.get ⟨i, hi⟩) := by
  induction rs generalizing res i with
  | nil => exact absurd hj (by simp)
  | cons r rest ih =>
    unfold processResponses at h
    cases h1 : processOne P r with
    | error e => rw [h1] at h; cases h
    | ok result =>
      rw [h1] at h
      cases h2 : processResponses P rest with
      | error e => rw [h2] at h; cases h
      | ok more =>
        rw [h2] at h
        cases h
        cases i with
        | zero => simpa using h1
        | succ k =>
          have hk : k < more.length := by simpa using hi
          have hk2 : k < rest.length := by simpa using hj
          simpa using ih more h2 k hk hk2

/-! ## C4 -/

/-- C4: On either fork path, the executor trace-config record built for a
non-default tracer has storage, stack, memory and return-data capture all
maximal regardless of the caller's toggles; with the default tracer
selected, each caller toggle narrows exactly the corresponding field. -/
theorem C4_capture_policy (tc : TraceConfig) (h : Nat) :
    (tc.IsDefaultTracer = false →
      (buildExecTraceConfig tc h).disableStorage = cFalse ∧
      (buildExecTraceConfig tc h).disableStack = cFalse ∧
      (buildExecTraceConfig tc h).enableMemory = cTrue ∧
      (buildExecTraceConfig tc h).enableReturnData = cTrue ∧
      (buildExecTraceConfigV2 tc h).disableStorage = cFalse ∧
      (buildExecTraceConfigV2 tc h).disableStack = cFalse ∧
      (buildExecTraceConfigV2 tc h).enableMemory = cTrue ∧
      (buildExecTraceConfigV2 tc h).enableReturnData = cTrue) ∧
    (tc.IsDefaultTracer = true →
      (buildExecTraceConfig tc h).disableStorage = (if tc.disableStorage then cTrue else cFalse) ∧
      (buildExecTraceConfig tc h).disableStack = (if tc.disableStack then cTrue else cFalse) ∧
      (buildExecTraceConfig tc h).enableMemory = (if tc.enableMemory then cTrue else cFalse) ∧
      (buildExecTraceConfig tc h).enableReturnData = (if tc.enableReturnData then cTrue else cFalse) ∧
      (buildExecTraceConfigV2 tc h).disableStorage = (if tc.disableStorage then cTrue else cFalse) ∧
      (buildExecTraceConfigV2 tc h).disableStack = (if tc.disableStack then cTrue else cFalse) ∧
      (buildExecTraceConfigV2 tc h).enableMemory = (if tc.enableMemory then cTrue else cFalse) ∧
      (buildExecTraceConfigV2 tc h).enableReturnData = (if tc.enableReturnData then cTrue else cFalse)) := by
  constructor <;> intro hd
  · simp [buildExecTraceConfig, buildExecTraceConfigV2, hd]
  · cases hs : tc.disableStorage <;> cases hk : tc.disableStack <;>
      cases hm : tc.enableMemory <;> cases hr : tc.enableReturnData <;>
      simp [buildExecTraceConfig, buildExecTraceConfigV2, hd, hs, hk, hm, hr]

/-- C4 witness: a request minimizing every capture toggle but selecting the
non-default `4byteTracer` still yields maximal capture, and the same
request with the default tracer narrows every field. -/
theorem C4_witness :
    ((TraceConfig.mk (some "4byteTracer") 0 true true false false 0 false).IsDefaultTracer = false ∧
      (buildExecTraceConfig (TraceConfig.mk (some "4byteTracer") 0 true true false false 0 false) 3).disableStorage = cFalse ∧
      (buildExecTraceConfig (TraceConfig.mk (some "4byteTracer") 0 true true false false 0 false) 3).enableMemory = cTrue) ∧
    ((TraceConfig.mk none 0 true true false false 0 false).IsDefaultTracer = true ∧
      (buildExecTraceConfig (TraceConfig.mk none 0 true true false false 0 false) 3).disableStorage = (if true then cTrue else cFalse)) := by
  refine ⟨⟨by decide, ?_, ?_⟩, ⟨by decide, ?_⟩⟩
  · exact ((C4_capture_policy (TraceConfig.mk (some "4byteTracer") 0 true true false false 0 false) 3).1 (by decide)).1
  · exact ((C4_capture_policy (TraceConfig.mk (some "4byteTracer") 0 true true false false 0 false) 3).1 (by decide)).2.2.1
  · exact ((C4_capture_policy (TraceConfig.mk none 0 true true false false 0 false) 3).2 (by decide)).1

/-! ## C1 -/

/-- C1: For every target block, once a fork branch has obtained the
converted per-transaction responses, a count differing from the block's
transaction count makes `DebugBlock` fail with the count-mismatch error and
no results; with equal counts a successful replay returns exactly one
execution result per transaction, the result at index `i` being produced
from the response at index `i`. -/
theorem C1_result_count (env : Env) (blockNumber : Nat) (tc : TraceConfig) (L : LoadCtx)
    (responses : List ProcessTransactionResponse)
    (hL : loadPhase env blockNumber = .ok L)
    (hB : (if L.forkId < FORKID_ETROG then preBranch env tc L else etrogBranch env tc L)
            = .ok responses) :
    (responses.length ≠ L.l2Block.transactions.length →
        debugBlock env blockNumber tc = (.error .countMismatch, [])) ∧
    (responses.length = L.l2Block.transactions.length →
      ∀ results, processResponses (mkParams env tc L) responses = .ok results →
        debugBlock env blockNumber tc = (.ok results, []) ∧
        results.length = L.l2Block.transactions.length ∧
        ∀ i (hi : i < results.length) (hj : i < responses.length),
          processOne (mkParams env tc L) (responses.get ⟨i, hj⟩) = .ok (results.get ⟨i, hi⟩)) := by
  have hd := debugBlock_eq_of env blockNumber tc L hL
  rw [hB] at hd
  constructor
  · intro hne
    rw [hd]
    simp [debugSuffix, hne]
  · intro heq results hres
    refine ⟨?_, ?_, ?_⟩
    · rw [hd]
      simp [debugSuffix, heq, hres]
    · rw [← heq]
      exact processResponses_ok_length _ _ _ hres
    · intro i hi hj
      exact processResponses_ok_get _ _ _ hres i hi hj

/-! ## Sample data used by the witnesses -/

/-- A caller configuration selecting the default tracer with maximal
toggles. -/
def tcDefault : TraceConfig := ⟨none, 0, false, false, true, true, 0, false⟩

/-- Sample transaction: a plain call. -/
def txA : Transaction := ⟨some 70, 3, 100, 5, [1], 41, some 21⟩

/-- Sample transaction: a contract creation, last in the block. -/
def txB : Transaction := ⟨none, 4, 200, 6, [2, 2], 42, some 22⟩

/-- Sample target block number 5 with two transactions. -/
def blkW : L2Block := ⟨5, 1000, 55, 91, [txA, txB]⟩

/-- Sample previous block. -/
def prevW : L2Block := ⟨4, 900, 50, 91, []⟩

/-- Sample receipt of the last transaction. -/
def rcptW : Receipt := ⟨4, 77, 5, 1⟩

/-- Sample enclosing batch. -/
def batchW : Batch := ⟨9, 8, 7, 6, 1111, 60, [9]⟩

/-- Sample raw trace payload carried by the executor responses. -/
def ftW : FullTrace := ⟨⟨"", 0, 0, [], 0, 0, [], 0, 0, 0, 0⟩, 0⟩

/-- Sample converted per-transaction response for the first transaction. -/
def respW1 : ProcessTransactionResponse := ⟨100, 10, 20, [3], 61, ftW, none⟩

/-- Sample converted per-transaction response for the second transaction. -/
def respW2 : ProcessTransactionResponse := ⟨101, 11, 21, [4], 62, ftW, none⟩

/-- A concrete environment realizing the pre-boundary happy path for block
5: fork id 5, a clean executor round-trip and two converted responses. -/
def baseEnv : Env where
  getL2BlockByNumber := fun n =>
    if n = 5 then .ok blkW else if n = 4 then .ok prevW else .error (.storage 1)
  getTransactionReceipt := fun h => if h = 42 then .ok rcptW else .error (.storage 2)
  getBatchByL2BlockNumber := fun _ => .ok batchW
  getForkIDByBatchNumber := fun _ => 5
  calculateEffectiveGasPricePercentage := fun _ _ => .ok 17
  encodeTransactions := fun _ _ _ => .ok [1, 2]
  decodeTxs := fun _ _ => .ok []
  decodeBatchV2 := fun _ => .ok ⟨[⟨30⟩]⟩
  getFirstL2BlockNumberForBatchNumber := fun _ => .ok 5
  buildChangeL2Block := fun _ _ => [7, 7]
  getL1InfoTreeDataFromBatchL2Data := fun _ => .ok []
  getVirtualBatch := fun _ => .ok ⟨88⟩
  getBlockByNumber := fun _ => .ok ⟨99⟩
  processBatch := fun _ => .ok ⟨0, 0⟩
  processBatchV2 := fun _ => .ok ⟨0, 0⟩
  convertToProcessBatchResponse := fun _ => .ok ⟨[⟨[respW1, respW2]⟩]⟩
  convertToProcessBatchResponseV2 := fun _ => .ok ⟨[⟨[respW1, respW2]⟩]⟩
  parseTrace := fun _ _ _ => .ok 11
  newTracer := fun _ _ _ => .ok 12
  setFlatCallTracerLimit := fun t _ => t
  newJsTracer := fun _ _ _ => .ok 13
  buildTrace := fun _ _ _ _ => .ok 14
  chainID := 195
  contextId := 1
  mockL1InfoRoot := 333
  now := 5000
  elapsed := 123

/-- The loaded context `loadPhase baseEnv 5` produces. -/
def LW : LoadCtx :=
  { l2Block := blkW, previousL2Block := prevW, oldStateRoot := 50,
    txOpt := some txB, receiptOpt := some rcptW, transactionHash := 42,
    txsToEncode := [txA, txB], effectivePercentage := [17, 17],
    batch := batchW, forkId := 5 }

/-- The execution result the loop builds from `respW1`: the context is
taken from the last transaction `txB`. -/
def resultW1 : ExecutionResult :=
  { createAddress := 100, gasLeft := 10, gasUsed := 20, returnValue := [3], stateRoot := 61,
    fullTrace := ⟨⟨"CREATE", 22, 100, [2, 2], 200, 6, [3], 4, 50, 123, 20⟩, 0⟩,
    err := none, traceResult := some 11 }

/-- The execution result the loop builds from `respW2`. -/
def resultW2 : ExecutionResult :=
  { createAddress := 101, gasLeft := 11, gasUsed := 21, returnValue := [4], stateRoot := 62,
    fullTrace := ⟨⟨"CREATE", 22, 101, [2, 2], 200, 6, [4], 4, 50, 123, 21⟩, 0⟩,
    err := none, traceResult := some 11 }

/-- C1 witness: on the concrete two-transaction block the equal-count case
returns exactly the two ordered results. -/
theorem C1_witness :
    debugBlock baseEnv 5 tcDefault = (.ok [resultW1, resultW2], []) ∧
    ([resultW1, resultW2] : List ExecutionResult).length = blkW.transactions.length := by
  have h := (C1_result_count baseEnv 5 tcDefault LW [respW1, respW2] rfl rfl).2
      rfl [resultW1, resultW2] rfl
  exact ⟨h.1, h.2.1⟩

/-! ## C9 -/

/-- C9: For a block with at least one transaction, every element of the
effective-gas-price percentage list handed to transaction encoding is the
single value computed from the LAST transaction's gas price and the LAST
transaction's receipt, repeated once per transaction. -/
theorem C9_egp_from_last_tx (env : Env) (blockNumber : Nat) (blk prev : L2Block)
    (lastTx : Transaction) (rcpt : Receipt) (batch : Batch) (v : Nat)
    (h1 : env.getL2BlockByNumber blockNumber = .ok blk)
    (h2 : env.getL2BlockByNumber (if blockNumber > 0 then blockNumber - 1 else 0) = .ok prev)
    (h3 : blk.transactions.getLast? = some lastTx)
    (h4 : env.getTransactionReceipt lastTx.hash = .ok rcpt)
    (h5 : egpOf env lastTx rcpt = .ok v)
    (h6 : env.getBatchByL2BlockNumber blk.number = .ok batch) :
    ∀ L, loadPhase env blockNumber = .ok L →
      L.effectivePercentage = List.replicate L.l2Block.transactions.length v := by
  intro L hL
  rw [loadPhase_eq_of env blockNumber blk prev lastTx rcpt batch v h1 h2 h3 h4 h5 h6] at hL
  cases hL
  rfl

/-- C9 witness: on the concrete two-transaction block both percentages are
the value 17 computed from the last transaction `txB` and its receipt. -/
theorem C9_witness :
    LW.effectivePercentage = List.replicate LW.l2Block.transactions.length 17 :=
  C9_egp_from_last_tx baseEnv 5 blkW prevW txB rcptW batchW 17 rfl rfl rfl rfl rfl rfl LW rfl

/-! ## C2 -/

theorem processOne_sender_none (P : Params) (r : ProcessTransactionResponse)
    (tx : Transaction) (htx : P.txOpt = some tx) (hs : tx.sender = none) :
    processOne P r = .error .senderRecoveryFailed := by
  simp [processOne, htx, GetSender, hs]

theorem processOne_ok_context (P : Params) (r : ProcessTransactionResponse)
    (res : ExecutionResult) (tx : Transaction)
    (htx : P.txOpt = some tx) (h : processOne P r = .ok res) :
    tx.sender = some res.fullTrace.context.From ∧
    res.fullTrace.context.input = tx.data ∧
    res.fullTrace.context.gas = tx.gas ∧
    res.fullTrace.context.value = tx.value ∧
    res.fullTrace.context.gasPrice = tx.gasPrice ∧
    (tx.toAddr = none → res.fullTrace.context.type = "CREATE" ∧
        res.fullTrace.context.toAddr = r.createAddress) ∧
    (∀ t, tx.toAddr = some t → res.fullTrace.context.type = "CALL" ∧
        res.fullTrace.context.toAddr = t) ∧
    res.createAddress = r.createAddress := by
  unfold processOne at h
  rw [htx] at h
  cases hs : tx.sender with
  | none => simp [GetSender, hs] at h
  | some a =>
    simp only [GetSender, hs] at h
    cases hto : tx.toAddr with
    | none =>
      simp only [hto] at h
      cases hr : P.receiptOpt with
      | none => simp [hr] at h
      | some receipt =>
        simp only [hr] at h
        split at h
        · split at h
          · cases h
          · cases h
            exact ⟨rfl, rfl, rfl, rfl, rfl, fun _ => ⟨rfl, rfl⟩,
              fun t ht => Option.noConfusion ht, rfl⟩
        · split at h
          · cases h
          · split at h
            · cases h
            · cases h
              exact ⟨rfl, rfl, rfl, rfl, rfl, fun _ => ⟨rfl, rfl⟩,
                fun t ht => Option.noConfusion ht, rfl⟩
    | some tgt =>
      simp only [hto] at h
      cases hr : P.receiptOpt with
      | none => simp [hr] at h
      | some receipt =>
        simp only [hr] at h
        split at h
        · split at h
          · cases h
          · cases h
            exact ⟨rfl, rfl, rfl, rfl, rfl, fun hn => Option.noConfusion hn,
              fun t ht => by cases ht; exact ⟨rfl, rfl⟩, rfl⟩
        · split at h
          · cases h
          · split at h
            · cases h
            · cases h
              exact ⟨rfl, rfl, rfl, rfl, rfl, fun hn => Option.noConfusion hn,
                fun t ht => by cases ht; exact ⟨rfl, rfl⟩, rfl⟩

/-- The claim C2 as stated: the instrumentation context attached to result
`i` is built from transaction `i` of the block (sender, input, gas, value,
gas price, and the call kind from transaction `i`'s recipient). -/
def ClaimC2 : Prop :=
  ∀ (env : Env) (blockNumber : Nat) (tc : TraceConfig) (L : LoadCtx)
    (results : List ExecutionResult) (events : List AuditEvent),
    loadPhase env blockNumber = .ok L →
    debugBlock env blockNumber tc = (.ok results, events) →
    ∀ i (hi : i < results.length) (ht : i < L.l2Block.transactions.length),
      (L.l2Block.transactions.get ⟨i, ht⟩).sender
          = some (results.get ⟨i, hi⟩).fullTrace.context.From ∧
      (results.get ⟨i, hi⟩).fullTrace.context.input
          = (L.l2Block.transactions.get ⟨i, ht⟩).data ∧
      (results.get ⟨i, hi⟩).fullTrace.context.gas
          = (L.l2Block.transactions.get ⟨i, ht⟩).gas ∧
      (results.get ⟨i, hi⟩).fullTrace.context.value
          = (L.l2Block.transactions.get ⟨i, ht⟩).value ∧
      (results.get ⟨i, hi⟩).fullTrace.context.gasPrice
          = (L.l2Block.transactions.get ⟨i, ht⟩).gasPrice ∧
      ((L.l2Block.transactions.get ⟨i, ht⟩).toAddr = none →
          (results.get ⟨i, hi⟩).fullTrace.context.type = "CREATE") ∧
      (∀ t, (L.l2Block.transactions.get ⟨i, ht⟩).toAddr = some t →
          (results.get ⟨i, hi⟩).fullTrace.context.type = "CALL" ∧
          (results.get ⟨i, hi⟩).fullTrace.context.toAddr = t)

/-- C2 counterexample: on the concrete two-transaction block, result 0's
context carries the input of the LAST transaction `txB`, not of transaction
0 (`txA`), so the claim as stated fails. -/
theorem C2_counterexample : ¬ ClaimC2 := by
  intro h
  have h0 := h baseEnv 5 tcDefault LW [resultW1, resultW2] [] rfl rfl
      0 (by decide) (by decide)
  exact absurd h0.2.1 (by decide)

/-- C2 corrected: the instrumentation context of EVERY result is built from
the block's LAST transaction: its signature-recovery failure aborts the
whole replay, and each context's sender, input, gas, value and gas price
come from the last transaction, with call kind CREATE (and result `i`'s
created address) when the LAST transaction's recipient is nil and CALL
with the LAST transaction's target otherwise. -/
theorem C2_last_tx_context (env : Env) (blockNumber : Nat) (tc : TraceConfig) (L : LoadCtx)
    (responses : List ProcessTransactionResponse) (lastTx : Transaction)
    (hL : loadPhase env blockNumber = .ok L)
    (hB : (if L.forkId < FORKID_ETROG then preBranch env tc L else etrogBranch env tc L)
            = .ok responses)
    (hlen : responses.length = L.l2Block.transactions.length)
    (htx : L.txOpt = some lastTx) :
    (lastTx.sender = none → responses ≠ [] →
        debugBlock env blockNumber tc = (.error .senderRecoveryFailed, [])) ∧
    (∀ results, processResponses (mkParams env tc L) responses = .ok results →
      debugBlock env blockNumber tc = (.ok results, []) ∧
      ∀ i (hi : i < results.length) (hj : i < responses.length),
        lastTx.sender = some (results.get ⟨i, hi⟩).fullTrace.context.From ∧
        (results.get ⟨i, hi⟩).fullTrace.context.input = lastTx.data ∧
        (results.get ⟨i, hi⟩).fullTrace.context.gas = lastTx.gas ∧
        (results.get ⟨i, hi⟩).fullTrace.context.value = lastTx.value ∧
        (results.get ⟨i, hi⟩).fullTrace.context.gasPrice = lastTx.gasPrice ∧
        (lastTx.toAddr = none → (results.get ⟨i, hi⟩).fullTrace.context.type = "CREATE" ∧
            (results.get ⟨i, hi⟩).fullTrace.context.toAddr
              = (responses.get ⟨i, hj⟩).createAddress) ∧
        (∀ t, lastTx.toAddr = some t →
            (results.get ⟨i, hi⟩).fullTrace.context.type = "CALL" ∧
            (results.get ⟨i, hi⟩).fullTrace.context.toAddr = t)) := by
  have hd := debugBlock_eq_of env blockNumber tc L hL
  rw [hB] at hd
  constructor
  · intro hs hne
    rw [hd]
    cases responses with
    | nil => exact absurd rfl hne
    | cons r rest =>
      have hone : processOne (mkParams env tc L) r = .error .senderRecoveryFailed :=
        processOne_sender_none _ r lastTx htx hs
      simp [debugSuffix, hlen, processResponses, hone]
  · intro results hres
    constructor
    · rw [hd]
      simp [debugSuffix, hlen, hres]
    · intro i hi hj
      have hone := processResponses_ok_get _ _ _ hres i hi hj
      have hc := processOne_ok_context (mkParams env tc L) _ _ lastTx htx hone
      exact ⟨hc.1, hc.2.1, hc.2.2.1, hc.2.2.2.1, hc.2.2.2.2.1,
        hc.2.2.2.2.2.1, hc.2.2.2.2.2.2.1⟩

/-- C2 witness: on the concrete block the first result's context carries
the last transaction's sender and input. -/
theorem C2_witness :
    debugBlock baseEnv 5 tcDefault = (.ok [resultW1, resultW2], []) ∧
    txB.sender = some resultW1.fullTrace.context.From ∧
    resultW1.fullTrace.context.input = txB.data := by
  have h := C2_last_tx_context baseEnv 5 tcDefault LW [respW1, respW2] txB rfl rfl rfl rfl
  have h2 := h.2 [resultW1, resultW2] rfl
  have h3 := h2.2 0 (by decide) (by decide)
  exact ⟨h2.1, h3.1, h3.2.1⟩

/-! ## C7 -/

/-- C7: On either fork path, a non-zero executor error code makes
`DebugBlock` log the failing request to the audit log, return no results
and surface the code mapped to the domain executor error; a zero code is
the only case that proceeds. -/
theorem C7_executor_error (env : Env) (blockNumber : Nat) (tc : TraceConfig) (L : LoadCtx)
    (hL : loadPhase env blockNumber = .ok L) :
    (L.forkId < FORKID_ETROG → ∀ data resp,
      env.encodeTransactions L.txsToEncode L.effectivePercentage L.forkId = .ok data →
      env.processBatch (buildProcessBatchRequest env tc L data) = .ok resp →
      resp.error ≠ 0 →
      debugBlock env blockNumber tc =
        (.error (.executorError resp.error),
         [.executorErrorV1 resp.error (buildProcessBatchRequest env tc L data)])) ∧
    (¬ L.forkId < FORKID_ETROG → ∀ out resp,
      etrogRequest env tc L = .ok out →
      env.processBatchV2 out.req = .ok resp →
      resp.error ≠ 0 →
      debugBlock env blockNumber tc =
        (.error (.executorError resp.error), [.executorErrorV2 resp.error out.req])) := by
  have hd := debugBlock_eq_of env blockNumber tc L hL
  constructor
  · intro hfork data resp he hp hne
    rw [hd, if_pos hfork]
    simp [preBranch, he, hp, hne, debugSuffix]
  · intro hfork out resp hreq hp hne
    rw [hd, if_neg hfork]
    simp [etrogBranch, hreq, hp, hne, debugSuffix]

/-- An environment identical to `baseEnv` except that the executor reports
the non-zero error code 5. -/
def envC7 : Env := { baseEnv with processBatch := fun _ => .ok ⟨5, 0⟩ }

/-- C7 witness: the concrete failing executor call surfaces the mapped
error code 5 and logs the request. -/
theorem C7_witness :
    debugBlock envC7 5 tcDefault =
      (.error (.executorError 5),
       [.executorErrorV1 5 (buildProcessBatchRequest envC7 tcDefault LW [1, 2])]) :=
  (C7_executor_error envC7 5 tcDefault LW rfl).1 (by decide) [1, 2] ⟨5, 0⟩ rfl rfl (by decide)

/-! ## C8 -/

/-- C8: After a successful executor call on either fork path, the
decode-for-logging step tolerates exactly the `ErrInvalidData` ("no further
data to decode") failure — the pipeline proceeds to response conversion —
while every other decode failure makes `DebugBlock` return that error and
no results. -/
theorem C8_decode_tolerance (env : Env) (blockNumber : Nat) (tc : TraceConfig) (L : LoadCtx)
    (hL : loadPhase env blockNumber = .ok L) :
    (L.forkId < FORKID_ETROG → ∀ data resp,
      env.encodeTransactions L.txsToEncode L.effectivePercentage L.forkId = .ok data →
      env.processBatch (buildProcessBatchRequest env tc L data) = .ok resp →
      resp.error = 0 →
      ((∀ d, env.decodeTxs data L.forkId = .error d → d ≠ .invalidData →
          debugBlock env blockNumber tc = (.error (.decodeErr d), [])) ∧
       (env.decodeTxs data L.forkId = .error .invalidData →
          debugBlock env blockNumber tc =
            debugSuffix env tc L
              (match env.convertToProcessBatchResponse resp with
                | .error e => .fail e []
                | .ok conv => headResponses conv)))) ∧
    (¬ L.forkId < FORKID_ETROG → ∀ out resp,
      etrogRequest env tc L = .ok out →
      out.isInjectedTx = false →
      env.processBatchV2 out.req = .ok resp →
      resp.error = 0 →
      ((∀ d, env.decodeTxs out.batchL2Data L.forkId = .error d → d ≠ .invalidData →
          debugBlock env blockNumber tc = (.error (.decodeErr d), [])) ∧
       (env.decodeTxs out.batchL2Data L.forkId = .error .invalidData →
          debugBlock env blockNumber tc =
            debugSuffix env tc L
              (match env.convertToProcessBatchResponseV2 resp with
                | .error e => .fail e []
                | .ok conv => headResponses conv)))) := by
  have hd := debugBlock_eq_of env blockNumber tc L hL
  constructor
  · intro hfork data resp he hp h0
    have hd2 : debugBlock env blockNumber tc = debugSuffix env tc L (preBranch env tc L) := by
      rw [hd, if_pos hfork]
    constructor
    · intro d hdec hne
      cases d with
      | invalidData => exact absurd rfl hne
      | other c =>
        rw [hd2]
        simp [preBranch, he, hp, h0, decodeForLogging, hdec, debugSuffix]
    · intro hdec
      rw [hd2]
      simp only [preBranch, he, hp, h0, decodeForLogging, hdec]
      simp
  · intro hfork out resp hreq hinj hp h0
    have hd2 : debugBlock env blockNumber tc = debugSuffix env tc L (etrogBranch env tc L) := by
      rw [hd, if_neg hfork]
    constructor
    · intro d hdec hne
      cases d with
      | invalidData => exact absurd rfl hne
      | other c =>
        rw [hd2]
        simp [etrogBranch, hreq, hinj, hp, h0, decodeForLogging, hdec, debugSuffix]
    · intro hdec
      rw [hd2]
      simp only [etrogBranch, hreq, hinj, hp, h0, decodeForLogging, hdec]
      simp

/-- An environment where the decode-for-logging step fails with a decode
error other than `ErrInvalidData`. -/
def envC8a : Env := { baseEnv with decodeTxs := fun _ _ => .error (.other 3) }

/-- An environment where the decode-for-logging step fails with exactly
`ErrInvalidData`. -/
def envC8b : Env := { baseEnv with decodeTxs := fun _ _ => .error .invalidData }

/-- C8 witness: the non-tolerated decode failure aborts with that error,
while the tolerated `ErrInvalidData` failure leaves the replay to complete
normally with the two results. -/
theorem C8_witness :
    debugBlock envC8a 5 tcDefault = (.error (.decodeErr (.other 3)), []) ∧
    debugBlock envC8b 5 tcDefault = (.ok [resultW1, resultW2], []) := by
  constructor
  · exact ((C8_decode_tolerance envC8a 5 tcDefault LW rfl).1 (by decide) [1, 2] ⟨0, 0⟩
      rfl rfl rfl).1 (.other 3) rfl (by decide)
  · exact (((C8_decode_tolerance envC8b 5 tcDefault LW rfl).1 (by decide) [1, 2] ⟨0, 0⟩
      rfl rfl rfl).2 rfl).trans rfl

/-! ## C3 -/

/-- An environment on the post-boundary path whose batch decodes to two raw
blocks while the target block's computed index is 3: the bounds guard of
line 228 triggers. -/
def envC3 : Env :=
  { baseEnv with
      getForkIDByBatchNumber := fun _ => 9
      decodeBatchV2 := fun _ => .ok ⟨[⟨30⟩, ⟨31⟩]⟩
      getFirstL2BlockNumberForBatchNumber := fun _ => .ok 2 }

/-- C3: When the computed block index exceeds the number of decoded raw
blocks minus one, the guard of lines 228-231 executes `return nil, err`
while `err` is still nil from the preceding successful call, so
`DebugBlock` returns NO error and no results — success with an empty list
— on a block that has two transactions, contradicting the claimed non-nil
error. -/
theorem C3_bug_nil_error :
    debugBlock envC3 5 tcDefault = (.ok [], []) ∧ blkW.transactions.length = 2 := by
  constructor
  · rfl
  · rfl

/-! ## C10 -/

theorem u64ofInt_lt (i : Int) : u64ofInt i < 2 ^ 64 := by
  unfold u64ofInt
  have h1 : 0 ≤ i % (2 ^ 64 : Int) := Int.emod_nonneg i (by norm_num)
  have h2 : i % (2 ^ 64 : Int) < (2 ^ 64 : Int) := Int.emod_lt_of_pos i (by norm_num)
  omega

/-- C10: When the decoded raw batch has zero blocks, `uint64(len-1)`
underflows to `2 ^ 64 - 1`, the bounds guard can never trigger (the
computed index is a `uint64` value, hence never greater), and the
subsequent indexing of the empty block list is out of bounds: `DebugBlock`
ends in the modelled Go panic. -/
theorem C10_zero_blocks_panic (env : Env) (blockNumber : Nat) (tc : TraceConfig)
    (L : LoadCtx) (first : Nat)
    (hL : loadPhase env blockNumber = .ok L)
    (hfork : ¬ L.forkId < FORKID_ETROG)
    (hn1 : L.l2Block.number ≠ 1)
    (hdec : env.decodeBatchV2 L.batch.batchL2Data = .ok ⟨[]⟩)
    (hfirst : env.getFirstL2BlockNumberForBatchNumber L.batch.batchNumber = .ok first) :
    u64ofInt ((([] : List RawBlock).length : Int) - 1) = 2 ^ 64 - 1 ∧
    ¬ (u64sub L.l2Block.number first >
        u64ofInt ((([] : List RawBlock).length : Int) - 1)) ∧
    debugBlock env blockNumber tc = (.error .goPanic, []) := by
  have hval : u64ofInt ((([] : List RawBlock).length : Int) - 1) = 2 ^ 64 - 1 := by decide
  have hguard : ¬ (u64sub L.l2Block.number first >
      u64ofInt ((([] : List RawBlock).length : Int) - 1)) := by
    rw [hval]
    have := u64ofInt_lt ((L.l2Block.number : Int) - (first : Int))
    unfold u64sub
    omega
  refine ⟨hval, hguard, ?_⟩
  have hd := debugBlock_eq_of env blockNumber tc L hL
  rw [hd, if_neg hfork]
  have hb1 : (L.l2Block.number == 1) = false := by simp [hn1]
  have hguard3 : ¬ (u64ofInt (-1 : Int) < u64sub L.l2Block.number first) := by
    have he : ((([] : List RawBlock).length : Int) - 1) = (-1 : Int) := by norm_num
    rw [he] at hguard
    exact hguard
  simp [etrogBranch, etrogRequest, etrogPayload, hb1, hdec, hfirst, hguard3, debugSuffix]

/-- An environment on the post-boundary path whose batch decodes to ZERO
raw blocks. -/
def envC10 : Env :=
  { baseEnv with
      getForkIDByBatchNumber := fun _ => 9
      decodeBatchV2 := fun _ => .ok ⟨[]⟩ }

/-- The loaded context of `loadPhase envC10 5` (as `LW` but on fork id 9). -/
def LC10 : LoadCtx := { LW with forkId := 9 }

/-- C10 witness: on the concrete zero-block batch the guard value is
`2 ^ 64 - 1`, the guard does not trigger, and the operation ends in the
modelled panic. -/
theorem C10_witness :
    u64ofInt ((([] : List RawBlock).length : Int) - 1) = 2 ^ 64 - 1 ∧
    ¬ (u64sub LC10.l2Block.number 5 >
        u64ofInt ((([] : List RawBlock).length : Int) - 1)) ∧
    debugBlock envC10 5 tcDefault = (.error .goPanic, []) :=
  C10_zero_blocks_panic envC10 5 tcDefault LC10 5 rfl (by decide) (by decide) rfl rfl

/-! ## C5 -/

/-- C5: On the post-boundary path the genesis-injected branch — populating
`forcedBlockhashL1` from the anchoring L1 block and skipping L1-info-root
verification — is taken exactly when the target block number is 1; for any
other block the normal anchor path builds the request with no forced block
hash, attaching the L1-info-tree data (with skip-verify) exactly when the
resolved mapping is non-empty and leaving the standard-verification zero
values otherwise. -/
theorem C5_injected_iff_block_one (env : Env) (blockNumber : Nat) (tc : TraceConfig)
    (L : LoadCtx) (vb : VirtualBatch) (l1b : L1Block) (rawBatch : RawBatch) (first : Nat)
    (rawBlock : RawBlock) (enc : List Nat) (m : List (Nat × L1Data))
    (hL : loadPhase env blockNumber = .ok L)
    (hnum : L.l2Block.number = blockNumber)
    (hvb : env.getVirtualBatch L.batch.batchNumber = .ok vb)
    (hl1 : env.getBlockByNumber vb.blockNumber = .ok l1b)
    (hdec : env.decodeBatchV2 L.batch.batchL2Data = .ok rawBatch)
    (hfirst : env.getFirstL2BlockNumberForBatchNumber L.batch.batchNumber = .ok first)
    (hguard : ¬ (u64sub L.l2Block.number first >
        u64ofInt ((rawBatch.blocks.length : Int) - 1)))
    (hget : rawBatch.blocks.get? (u64sub L.l2Block.number first) = some rawBlock)
    (henc : env.encodeTransactions L.txsToEncode L.effectivePercentage L.forkId = .ok enc)
    (hm : env.getL1InfoTreeDataFromBatchL2Data
            (env.buildChangeL2Block (u32ofNat (u64sub L.l2Block.time L.previousL2Block.time))
              rawBlock.indexL1InfoTree ++ enc) = .ok m) :
    (blockNumber = 1 →
      etrogRequest env tc L = .ok
        { req := { buildProcessBatchRequestV2 env tc L L.batch.batchL2Data with
                     forcedBlockhashL1 := some l1b.blockHash, skipVerifyL1InfoRoot := 1 }
          batchL2Data := [], isInjectedTx := true }) ∧
    (blockNumber ≠ 1 →
      (∀ transactions, (buildProcessBatchRequestV2 env tc L transactions).forcedBlockhashL1 = none ∧
          (buildProcessBatchRequestV2 env tc L transactions).skipVerifyL1InfoRoot = cFalse ∧
          (buildProcessBatchRequestV2 env tc L transactions).l1InfoTreeData = []) ∧
      (m.length > 0 →
        etrogRequest env tc L = .ok
          { req := { buildProcessBatchRequestV2 env tc L
                       (env.buildChangeL2Block
                         (u32ofNat (u64sub L.l2Block.time L.previousL2Block.time))
                         rawBlock.indexL1InfoTree ++ enc) with
                       skipVerifyL1InfoRoot := cTrue
                       l1InfoTreeData := m.map (fun kv =>
                         (kv.1, { globalExitRoot := kv.2.globalExitRoot
                                  blockHashL1 := kv.2.blockHashL1
                                  minTimestamp := kv.2.minTimestamp })) }
            batchL2Data := enc, isInjectedTx := false }) ∧
      (¬ m.length > 0 →
        etrogRequest env tc L = .ok
          { req := buildProcessBatchRequestV2 env tc L
                     (env.buildChangeL2Block
                       (u32ofNat (u64sub L.l2Block.time L.previousL2Block.time))
                       rawBlock.indexL1InfoTree ++ enc)
            batchL2Data := enc, isInjectedTx := false })) := by
  constructor
  · intro h1
    have hb1 : (L.l2Block.number == 1) = true := by simp [hnum, h1]
    simp [etrogRequest, etrogPayload, hb1, hvb, hl1]
  · intro hne
    have hb1 : (L.l2Block.number == 1) = false := by simp [hnum, hne]
    have hget2 : rawBatch.blocks[u64sub L.l2Block.number first]? = some rawBlock := by
      rw [← List.get?_eq_getElem?]
      exact hget
    refine ⟨fun transactions => ⟨rfl, rfl, rfl⟩, ?_, ?_⟩
    · intro hml
      simp [etrogRequest, etrogPayload, hb1, hdec, hfirst, hguard, hget2, henc, hm, hml]
    · intro hml
      simp [etrogRequest, etrogPayload, hb1, hdec, hfirst, hguard, hget2, henc, hm, hml]

/-- The target block of number 1 used by the injected-path witnesses. -/
def blk1 : L2Block := ⟨1, 1000, 55, 91, [txA, txB]⟩

/-- The previous (genesis) block of the injected-path witnesses. -/
def prev0 : L2Block := ⟨0, 900, 50, 91, []⟩

/-- A post-boundary environment whose target block is number 1 and whose
batch payload also decodes consistently (first block number 1). -/
def envC5 : Env :=
  { baseEnv with
      getL2BlockByNumber := fun n =>
        if n = 1 then .ok blk1 else if n = 0 then .ok prev0 else .error (.storage 1)
      getForkIDByBatchNumber := fun _ => 9
      getFirstL2BlockNumberForBatchNumber := fun _ => .ok 1 }

/-- The loaded context of `loadPhase envC5 1`. -/
def L1W : LoadCtx :=
  { l2Block := blk1, previousL2Block := prev0, oldStateRoot := 50,
    txOpt := some txB, receiptOpt := some rcptW, transactionHash := 42,
    txsToEncode := [txA, txB], effectivePercentage := [17, 17],
    batch := batchW, forkId := 9 }

/-- C5 witness: on the concrete block-1 scenario the injected branch fires,
carrying the anchoring L1 block hash 99 and the skip-verify flag. -/
theorem C5_witness :
    etrogRequest envC5 tcDefault L1W = .ok
      { req := { buildProcessBatchRequestV2 envC5 tcDefault L1W L1W.batch.batchL2Data with
                   forcedBlockhashL1 := some 99, skipVerifyL1InfoRoot := 1 }
        batchL2Data := [], isInjectedTx := true } :=
  (C5_injected_iff_block_one envC5 1 tcDefault L1W ⟨88⟩ ⟨99⟩ ⟨[⟨30⟩]⟩ 1 ⟨30⟩ [1, 2] []
    rfl rfl rfl rfl rfl rfl (by decide) (by decide) rfl rfl).1 rfl

/-! ## C6 -/

/-- The claim C6 as stated: on the post-boundary path, for EVERY target
block the request payload is the synthesized boundary pseudo-transaction
(built from the timestamp delta and the decoded raw block's L1-info-tree
index) prepended to the re-encoded transactions, and the request carries
the mock L1-info root and the wall-clock timestamp limit. -/
def ClaimC6 : Prop :=
  ∀ (env : Env) (tc : TraceConfig) (L : LoadCtx) (out : EtrogReq),
    etrogRequest env tc L = .ok out →
    ∀ rawBatch, env.decodeBatchV2 L.batch.batchL2Data = .ok rawBatch →
    ∀ first, env.getFirstL2BlockNumberForBatchNumber L.batch.batchNumber = .ok first →
    ∀ rawBlock, rawBatch.blocks.get? (u64sub L.l2Block.number first) = some rawBlock →
    ∀ enc, env.encodeTransactions L.txsToEncode L.effectivePercentage L.forkId = .ok enc →
      out.req.batchL2Data =
        env.buildChangeL2Block (u32ofNat (u64sub L.l2Block.time L.previousL2Block.time))
          rawBlock.indexL1InfoTree ++ enc ∧
      out.req.l1InfoRoot = env.mockL1InfoRoot ∧
      out.req.timestampLimit = env.now

/-- The request the injected-path scenario actually builds: its payload is
the stored batch payload `[9]`, not a synthesized prepend. -/
def outC5 : EtrogReq :=
  { req := { buildProcessBatchRequestV2 envC5 tcDefault L1W batchW.batchL2Data with
               forcedBlockhashL1 := some 99, skipVerifyL1InfoRoot := 1 }
    batchL2Data := [], isInjectedTx := true }

/-- C6 counterexample: on the genesis-injected block 1 the payload is the
stored batch data `[9]`, which is not the synthesized boundary transaction
`[7, 7]` prepended to the re-encoded transactions `[1, 2]`, so the claim
fails for that target block. -/
theorem C6_counterexample : ¬ ClaimC6 := by
  intro h
  have h0 := h envC5 tcDefault L1W outC5 rfl ⟨[⟨30⟩]⟩ rfl 1 rfl ⟨30⟩ (by decide) [1, 2] rfl
  exact absurd h0.1 (by decide)

/-- C6 corrected: on the post-boundary path the payload consists of the
synthesized boundary pseudo-transaction prepended to the re-encoded
transactions for every NON-GENESIS target block (block number different
from 1; block 1 ships the stored batch payload verbatim), while the mock
L1-info root and the wall-clock timestamp limit are carried either way. -/
theorem C6_payload_nongenesis (env : Env) (tc : TraceConfig) (L : LoadCtx)
    (rawBatch : RawBatch) (first : Nat) (rawBlock : RawBlock) (enc : List Nat)
    (hn1 : L.l2Block.number ≠ 1)
    (hdec : env.decodeBatchV2 L.batch.batchL2Data = .ok rawBatch)
    (hfirst : env.getFirstL2BlockNumberForBatchNumber L.batch.batchNumber = .ok first)
    (hguard : ¬ (u64sub L.l2Block.number first >
        u64ofInt ((rawBatch.blocks.length : Int) - 1)))
    (hget : rawBatch.blocks.get? (u64sub L.l2Block.number first) = some rawBlock)
    (henc : env.encodeTransactions L.txsToEncode L.effectivePercentage L.forkId = .ok enc) :
    ∀ out, etrogRequest env tc L = .ok out →
      out.req.batchL2Data =
        env.buildChangeL2Block (u32ofNat (u64sub L.l2Block.time L.previousL2Block.time))
          rawBlock.indexL1InfoTree ++ enc ∧
      out.req.l1InfoRoot = env.mockL1InfoRoot ∧
      out.req.timestampLimit = env.now ∧
      out.batchL2Data = enc ∧ out.isInjectedTx = false ∧
      out.req.forcedBlockhashL1 = none := by
  intro out hout
  have hb1 : (L.l2Block.number == 1) = false := by simp [hn1]
  have hguard2 : ¬ (u64ofInt ((rawBatch.blocks.length : Int) - 1) <
      u64sub L.l2Block.number first) := hguard
  have hget2 : rawBatch.blocks[u64sub L.l2Block.number first]? = some rawBlock := by
    rw [← List.get?_eq_getElem?]
    exact hget
  simp only [etrogRequest, etrogPayload, hb1, Bool.false_eq_true, if_false, hdec, hfirst] at hout
  rw [if_neg hguard] at hout
  simp only [hget, henc] at hout
  cases hm : env.getL1InfoTreeDataFromBatchL2Data
      (env.buildChangeL2Block (u32ofNat (u64sub L.l2Block.time L.previousL2Block.time))
        rawBlock.indexL1InfoTree ++ enc) with
  | error e =>
    simp only [hm] at hout
    cases hout
  | ok m =>
    simp only [hm] at hout
    split at hout
    · cases hout
      exact ⟨rfl, rfl, rfl, rfl, rfl, rfl⟩
    · cases hout
      exact ⟨rfl, rfl, rfl, rfl, rfl, rfl⟩

/-- A post-boundary environment for a non-genesis block whose decoded batch
locates the block at index 0. -/
def envC6 : Env :=
  { baseEnv with
      getForkIDByBatchNumber := fun _ => 9
      getFirstL2BlockNumberForBatchNumber := fun _ => .ok 5 }

/-- The loaded context of `loadPhase envC6 5`. -/
def LC6 : LoadCtx := { LW with forkId := 9 }

/-- C6 witness: on the concrete non-genesis block the request payload is
the synthesized `[7, 7]` prepended to the re-encoded `[1, 2]`, with the
mock root and wall-clock limit attached. -/
theorem C6_witness :
    (buildProcessBatchRequestV2 envC6 tcDefault LC6
        (envC6.buildChangeL2Block (u32ofNat (u64sub LC6.l2Block.time LC6.previousL2Block.time))
          (30 : Nat) ++ [1, 2])).batchL2Data = [7, 7] ++ [1, 2] ∧
    etrogRequest envC6 tcDefault LC6 = .ok
      { req := buildProcessBatchRequestV2 envC6 tcDefault LC6 [7, 7, 1, 2]
        batchL2Data := [1, 2], isInjectedTx := false } ∧
    (buildProcessBatchRequestV2 envC6 tcDefault LC6 [7, 7, 1, 2]).l1InfoRoot
        = envC6.mockL1InfoRoot ∧
    (buildProcessBatchRequestV2 envC6 tcDefault LC6 [7, 7, 1, 2]).timestampLimit = envC6.now := by
  have h := C6_payload_nongenesis envC6 tcDefault LC6 ⟨[⟨30⟩]⟩ 5 ⟨30⟩ [1, 2]
    (by decide) rfl rfl (by decide) (by decide) rfl
    { req := buildProcessBatchRequestV2 envC6 tcDefault LC6 [7, 7, 1, 2]
      batchL2Data := [1, 2], isInjectedTx := false } rfl
  exact ⟨rfl, rfl, h.2.1, h.2.2.1⟩

end X1
